import Mathlib

/-!
Verification of `innopals/node-mysql-sugar` (`src/index.ts`).

The library wraps a callback-style MySQL driver pool behind a promise
interface.  The core is `withConnection` (acquire / optional
begin-transaction / run the unit of work / commit-or-rollback / release)
plus the callback-to-promise adapter `promisify`, the per-connection
facade `wrapConnection`, and the pool facade returned by `createPool`.

The embedding below models JavaScript values only as far as the code
inspects them: truthiness (every branch in the source is an `if (err)`
truthiness test), the `lastError` property assignment on caught errors,
and the `{results, fields}` / `{rows, fields}` result shapes declared by
the source's `QueryResult` / `SelectResult` interfaces.  Driver
primitives (`getConnection`, `beginTransaction`, `commit`, `rollback`,
`query`) are modelled by the value each one passes to its error-first
callback, and the executor is an executable function from those inputs
to the settled outcome plus a trace of how often each driver primitive
was invoked.
-/

/-- A JavaScript value, as far as `src/index.ts` inspects values: the
falsy primitives, numbers and strings, `Error` objects (with the
`lastError` property the executor may assign; an unset property reads as
`undefined`), and the two result-object shapes the source constructs
(`QueryResult {results, fields}` and `SelectResult {rows, fields}`). -/
inductive JSVal where
  | vUndefined
  | vNull
  | vBool (b : Bool)
  | vNum (n : Int)
  | vStr (s : String)
  | vErr (message : String) (lastErr : JSVal)
  | vQueryResult (results : JSVal) (fieldsVal : JSVal)
  | vSelectResult (rows : JSVal) (fieldsVal : JSVal)
deriving Repr, DecidableEq

/-- JavaScript truthiness: `undefined`, `null`, `false`, `0` and `""`
are falsy; every other value (objects included) is truthy. -/
def truthy : JSVal → Bool
  | .vUndefined => false
  | .vNull => false
  | .vBool b => b
  | .vNum n => n ≠ 0
  | .vStr s => s ≠ ""
  | .vErr _ _ => true
  | .vQueryResult _ _ => true
  | .vSelectResult _ _ => true

/-- The executor's `e.lastError = err` (line 175): on an `Error` object
the property is assigned (overwriting any previous value); assigning a
property on a primitive is a silent no-op. -/
def setLastError : JSVal → JSVal → JSVal
  | .vErr msg _, e => .vErr msg e
  | v, _ => v

/-- The settled state of a promise: resolved with a value or rejected
with a value. -/
inductive Outcome where
  | resolved (v : JSVal)
  | rejected (e : JSVal)
deriving Repr, DecidableEq

/-- One step of the executor callback installed by `promisify`
(lines 108-110): applied to a promise state (`none` = still pending) and
one invocation `(error, result)` of the completion callback.  `resolve`
and `reject` on an already settled promise are no-ops; on a pending one
the promise rejects with `error` when it is truthy and otherwise
resolves with `result`. -/
def settleStep (st : Option Outcome) (call : JSVal × JSVal) : Option Outcome :=
  match st with
  | some o => some o
  | none => if truthy call.1 then some (.rejected call.1) else some (.resolved call.2)

/-- The promise produced by a `promisify`-wrapped operation, given the
sequence of invocations the wrapped operation makes of its completion
callback: `none` when the callback is never invoked (the promise stays
pending), otherwise the settlement decided by the first invocation. -/
def promisifyRun (calls : List (JSVal × JSVal)) : Option Outcome :=
  calls.foldl settleStep none

/-- The loop bound `paramLength || func.length - 1` of line 105.  `||`
returns its right operand whenever the left one is falsy, and both an
omitted `paramLength` (`undefined`) and an explicit `0` are falsy, so
only a nonzero explicit count avoids the fallback to the wrapped
operation's declared arity minus one. -/
def promisifyParamCount (paramLength : Option Int) (funcLength : Int) : Int :=
  match paramLength with
  | none => funcLength - 1
  | some n => if n = 0 then funcLength - 1 else n

/-- The positional-argument list `promisify` builds for the wrapped
operation (lines 104-107), before the completion callback is appended:
`args[i]` for `i` below the loop bound, reading `undefined` past the end
of the supplied arguments. -/
def promisifyArgs (paramLength : Option Int) (funcLength : Int) (args : List JSVal) : List JSVal :=
  (List.range (promisifyParamCount paramLength funcLength).toNat).map
    (fun i => args.getD i .vUndefined)

/-- `await promisify(op, 0)()` for a zero-argument driver primitive that
invokes its callback once with error value `e`: `some e` when the await
throws (the callback error was truthy), `none` when it returns
normally. -/
def awaitPromisified (e : JSVal) : Option JSVal :=
  if truthy e then some e else none

/-- The driver-visible behaviour of one pooled connection: the value
each transaction primitive passes to its error-first callback, and the
`(err, results, fields)` triple its `query` passes. -/
structure DriverConn where
  beginResult : JSVal
  commitResult : JSVal
  rollbackResult : JSVal
  queryErr : JSVal
  queryResults : JSVal
  queryFields : JSVal
deriving Repr, DecidableEq

/-- The outcome of the caller-supplied unit of work: its promise
resolves with a value or rejects with a (possibly falsy) value. -/
inductive WorkOutcome where
  | ok (v : JSVal)
  | err (e : JSVal)
deriving Repr, DecidableEq

/-- How often each driver primitive was invoked during one
`withConnection` call. -/
structure Trace where
  acquires : Nat
  begins : Nat
  commits : Nat
  rollbacks : Nat
  releases : Nat
deriving Repr, DecidableEq

/-- The state owned by the pool facade: line 149 stores the driver pool
in a mutable slot that `destroy` clears; `endCalls` counts `pool.end()`
invocations. -/
structure PoolHandle where
  pool : Bool
  endCalls : Nat
deriving Repr, DecidableEq

/-- `destroy` (lines 185-189): a no-op when the pool slot is already
cleared, otherwise it calls `pool.end()` once and clears the slot. -/
def destroy (h : PoolHandle) : PoolHandle :=
  if !h.pool then h else ⟨false, h.endCalls + 1⟩

/-- The rejection value of the destroyed-pool guard (line 155). -/
def poolDestroyedError : JSVal := .vErr "Connection pool already destroyed." .vUndefined

/-- The `withConnection` executor (lines 150-182) on one invocation:
`h` is the pool slot, `acquireErr` the value `pool.getConnection` passes
as its callback error (falsy = a connection was obtained), `conn` the
obtained connection's driver behaviour and `work` the unit of work's
outcome.  Returns the settled outcome together with the invocation
trace.  Faithful points: the destroyed-pool guard rejects before
`getConnection` is called; a truthy acquisition error rejects with
nothing else run; the first `try` block sets `err` to any value thrown
by begin or by the work (`result` keeps its initial `undefined` then);
the second `try` block branches on the truthiness of `err`, rolling back
and rejecting with `err` when truthy, else committing and resolving with
`result`; its `catch` attaches `err` as `lastError` on the caught value
only when `err` is truthy, then rejects with the caught value; and
`connection.release()` runs after every one of those paths. -/
def withConnectionRun (h : PoolHandle) (acquireErr : JSVal) (conn : DriverConn)
    (work : WorkOutcome) (withTransaction : Bool) : Outcome × Trace :=
  if !h.pool then
    (.rejected poolDestroyedError, ⟨0, 0, 0, 0, 0⟩)
  else if truthy acquireErr then
    (.rejected acquireErr, ⟨1, 0, 0, 0, 0⟩)
  else
    let begins : Nat := if withTransaction then 1 else 0
    let beginThrow : Option JSVal :=
      if withTransaction then awaitPromisified conn.beginResult else none
    let err : JSVal :=
      match beginThrow with
      | some e => e
      | none =>
        match work with
        | .ok _ => acquireErr
        | .err e => e
    let result : JSVal :=
      match beginThrow with
      | some _ => .vUndefined
      | none =>
        match work with
        | .ok v => v
        | .err _ => .vUndefined
    if truthy err then
      if withTransaction then
        match awaitPromisified conn.rollbackResult with
        | some e => (.rejected (setLastError e err), ⟨1, begins, 0, 1, 1⟩)
        | none => (.rejected err, ⟨1, begins, 0, 1, 1⟩)
      else
        (.rejected err, ⟨1, begins, 0, 0, 1⟩)
    else
      if withTransaction then
        match awaitPromisified conn.commitResult with
        | some e => (.rejected e, ⟨1, begins, 1, 0, 1⟩)
        | none => (.resolved result, ⟨1, begins, 1, 0, 1⟩)
      else
        (.resolved result, ⟨1, begins, 0, 0, 1⟩)

/-- The connection facade's `query` (lines 118-124): rejects with the
driver's callback error when truthy, otherwise resolves with
`{results, fields}`. -/
def connQuery (c : DriverConn) : WorkOutcome :=
  if truthy c.queryErr then .err c.queryErr
  else .ok (.vQueryResult c.queryResults c.queryFields)

/-- Property read `result.results` on a facade query result. -/
def getResults : JSVal → JSVal
  | .vQueryResult results _ => results
  | _ => .vUndefined

/-- Property read `result.fields` on a facade query result. -/
def getFields : JSVal → JSVal
  | .vQueryResult _ f => f
  | _ => .vUndefined

/-- The facade's `select` (lines 132-137): `query` reshaped to
`{rows: result.results, fields: result.fields}`. -/
def connSelect (c : DriverConn) : WorkOutcome :=
  match connQuery c with
  | .ok r => .ok (.vSelectResult (getResults r) (getFields r))
  | .err e => .err e

/-- The facade's `cud` primitive (lines 126-128), shared by `insert`,
`update`, `delete` and `del`: `query` reshaped to `result.results`. -/
def connCud (c : DriverConn) : WorkOutcome :=
  match connQuery c with
  | .ok r => .ok (getResults r)
  | .err e => .err e

/-- Pool facade `query` (lines 191-195): `withConnection` of the facade
`query`, with `withTransaction` left at its default `false`. -/
def poolQuery (h : PoolHandle) (acquireErr : JSVal) (conn : DriverConn) : Outcome × Trace :=
  withConnectionRun h acquireErr conn (connQuery conn) false

/-- Pool facade `select` (lines 196-200). -/
def poolSelect (h : PoolHandle) (acquireErr : JSVal) (conn : DriverConn) : Outcome × Trace :=
  withConnectionRun h acquireErr conn (connSelect conn) false

/-- Pool facade `insert` (lines 201-205). -/
def poolInsert (h : PoolHandle) (acquireErr : JSVal) (conn : DriverConn) : Outcome × Trace :=
  withConnectionRun h acquireErr conn (connCud conn) false

/-- Pool facade `update` (lines 206-210). -/
def poolUpdate (h : PoolHandle) (acquireErr : JSVal) (conn : DriverConn) : Outcome × Trace :=
  withConnectionRun h acquireErr conn (connCud conn) false

/-- Pool facade `delete` (lines 211-215). -/
def poolDelete (h : PoolHandle) (acquireErr : JSVal) (conn : DriverConn) : Outcome × Trace :=
  withConnectionRun h acquireErr conn (connCud conn) false

/-- Pool facade `del` (lines 216-220), an alias issuing
`connection.delete`. -/
def poolDel (h : PoolHandle) (acquireErr : JSVal) (conn : DriverConn) : Outcome × Trace :=
  withConnectionRun h acquireErr conn (connCud conn) false

/-- A connection whose driver primitives all succeed (every callback
error is `null`). -/
def connAllOk : DriverConn := ⟨.vNull, .vNull, .vNull, .vNull, .vUndefined, .vUndefined⟩

/-- A connection whose `commit` fails with an `Error`. -/
def connCommitFails : DriverConn :=
  ⟨.vNull, .vErr "commit failed" .vUndefined, .vNull, .vNull, .vUndefined, .vUndefined⟩

/-- A connection whose `rollback` fails with an `Error`. -/
def connRollbackFails : DriverConn :=
  ⟨.vNull, .vNull, .vErr "rollback failed" .vUndefined, .vNull, .vUndefined, .vUndefined⟩

/-- Truthiness of `undefined`. -/
@[simp] theorem truthy_vUndefined : truthy .vUndefined = false := rfl

/-- Truthiness of `null`. -/
@[simp] theorem truthy_vNull : truthy .vNull = false := rfl

/-- Truthiness of a boolean value. -/
@[simp] theorem truthy_vBool (b : Bool) : truthy (.vBool b) = b := rfl

/-- Every `Error` object is truthy. -/
@[simp] theorem truthy_vErr (m : String) (l : JSVal) : truthy (.vErr m l) = true := rfl

/-- Assigning `lastError` on an `Error` object overwrites the property. -/
@[simp] theorem setLastError_vErr (m : String) (l e : JSVal) :
    setLastError (.vErr m l) e = .vErr m e := rfl

/-- C1: after a successful acquisition, `connection.release()` runs
exactly once on every path (any begin/commit/rollback behaviour, any
unit-of-work outcome, either transaction mode); when acquisition fails,
only `getConnection` itself ran: release, begin, commit and rollback are
never invoked. -/
theorem withConnection_release_discipline
    (h : PoolHandle) (acquireErr : JSVal) (conn : DriverConn)
    (work : WorkOutcome) (wT : Bool) :
    (h.pool = true → truthy acquireErr = false →
      (withConnectionRun h acquireErr conn work wT).2.releases = 1) ∧
    (h.pool = true → truthy acquireErr = true →
      (withConnectionRun h acquireErr conn work wT).2 = ⟨1, 0, 0, 0, 0⟩) := by
  constructor
  · intro hp ha
    rcases work with v | e
    · by_cases hb : truthy conn.beginResult <;>
        by_cases hr : truthy conn.rollbackResult <;>
        by_cases hc : truthy conn.commitResult <;>
        cases wT <;>
        simp [withConnectionRun, awaitPromisified, hp, ha, hb, hr, hc]
    · by_cases hb : truthy conn.beginResult <;>
        by_cases hr : truthy conn.rollbackResult <;>
        by_cases hc : truthy conn.commitResult <;>
        by_cases he : truthy e <;>
        cases wT <;>
        simp [withConnectionRun, awaitPromisified, hp, ha, hb, hr, hc, he]
  · intro hp ha
    simp [withConnectionRun, hp, ha]

/-- Witness for C1 at concrete inputs: a transactional success releases
once, and a failed acquisition produces the bare acquisition trace. -/
theorem withConnection_release_discipline_check :
    (withConnectionRun ⟨true, 0⟩ .vNull connAllOk (.ok (.vNum 7)) true).2.releases = 1 ∧
    (withConnectionRun ⟨true, 0⟩ (.vErr "boom" .vUndefined) connAllOk (.ok (.vNum 7)) true).2
      = ⟨1, 0, 0, 0, 0⟩ :=
  ⟨(withConnection_release_discipline ⟨true, 0⟩ .vNull connAllOk (.ok (.vNum 7)) true).1 rfl rfl,
   (withConnection_release_discipline ⟨true, 0⟩ (.vErr "boom" .vUndefined) connAllOk
      (.ok (.vNum 7)) true).2 rfl rfl⟩

/-- C2 counterexample: a unit of work whose promise rejects with the
falsy value `undefined` under `withTransaction=true` is routed through
the success branch — rollback is never invoked and commit is invoked
instead, contradicting the claim for this failing unit of work. -/
theorem falsy_work_failure_skips_rollback_cex :
    (withConnectionRun ⟨true, 0⟩ .vNull connAllOk (.err .vUndefined) true).2.rollbacks = 0 ∧
    (withConnectionRun ⟨true, 0⟩ .vNull connAllOk (.err .vUndefined) true).2.commits = 1 := by
  decide

/-- C2 (amended): for every unit of work that fails with a truthy error
under `withTransaction=true` (begin having succeeded), rollback is
invoked exactly once, commit is never invoked, release is invoked
exactly once, and the surfaced error equals the unit of work's error
whenever rollback itself succeeds. -/
theorem work_failure_rolls_back
    (h : PoolHandle) (acquireErr e : JSVal) (conn : DriverConn)
    (hp : h.pool = true) (ha : truthy acquireErr = false)
    (hb : truthy conn.beginResult = false) (he : truthy e = true) :
    (withConnectionRun h acquireErr conn (.err e) true).2.rollbacks = 1 ∧
    (withConnectionRun h acquireErr conn (.err e) true).2.commits = 0 ∧
    (withConnectionRun h acquireErr conn (.err e) true).2.releases = 1 ∧
    (truthy conn.rollbackResult = false →
      (withConnectionRun h acquireErr conn (.err e) true).1 = .rejected e) := by
  by_cases hr : truthy conn.rollbackResult <;>
    simp [withConnectionRun, awaitPromisified, hp, ha, hb, he, hr]

/-- Witness for C2 (amended) at a concrete input: work rejects with a
truthy `Error`, rollback succeeds; the invocation rolls back once,
never commits, releases once and surfaces the work error. -/
theorem work_failure_rolls_back_check :
    (withConnectionRun ⟨true, 0⟩ .vNull connAllOk (.err (.vErr "boom" .vUndefined)) true).2.rollbacks = 1 ∧
    (withConnectionRun ⟨true, 0⟩ .vNull connAllOk (.err (.vErr "boom" .vUndefined)) true).2.commits = 0 ∧
    (withConnectionRun ⟨true, 0⟩ .vNull connAllOk (.err (.vErr "boom" .vUndefined)) true).2.releases = 1 ∧
    (withConnectionRun ⟨true, 0⟩ .vNull connAllOk (.err (.vErr "boom" .vUndefined)) true).1
      = .rejected (.vErr "boom" .vUndefined) :=
  ⟨(work_failure_rolls_back ⟨true, 0⟩ .vNull (.vErr "boom" .vUndefined) connAllOk rfl rfl rfl rfl).1,
   (work_failure_rolls_back ⟨true, 0⟩ .vNull (.vErr "boom" .vUndefined) connAllOk rfl rfl rfl rfl).2.1,
   (work_failure_rolls_back ⟨true, 0⟩ .vNull (.vErr "boom" .vUndefined) connAllOk rfl rfl rfl rfl).2.2.1,
   (work_failure_rolls_back ⟨true, 0⟩ .vNull (.vErr "boom" .vUndefined) connAllOk rfl rfl rfl rfl).2.2.2 rfl⟩

/-- C3: for every unit of work that succeeds under
`withTransaction=true` (begin having succeeded), commit is invoked
exactly once, rollback is never invoked, release is invoked exactly
once, and whenever commit succeeds the caller's promise resolves with
the unit of work's value. -/
theorem work_success_commits
    (h : PoolHandle) (acquireErr v : JSVal) (conn : DriverConn)
    (hp : h.pool = true) (ha : truthy acquireErr = false)
    (hb : truthy conn.beginResult = false) :
    (withConnectionRun h acquireErr conn (.ok v) true).2.commits = 1 ∧
    (withConnectionRun h acquireErr conn (.ok v) true).2.rollbacks = 0 ∧
    (withConnectionRun h acquireErr conn (.ok v) true).2.releases = 1 ∧
    (truthy conn.commitResult = false →
      (withConnectionRun h acquireErr conn (.ok v) true).1 = .resolved v) := by
  by_cases hc : truthy conn.commitResult <;>
    simp [withConnectionRun, awaitPromisified, hp, ha, hb, hc]

/-- Witness for C3 at a concrete input: the work resolves with `7`, all
driver primitives succeed; the invocation commits once, never rolls
back, releases once and resolves with `7`. -/
theorem work_success_commits_check :
    (withConnectionRun ⟨true, 0⟩ .vNull connAllOk (.ok (.vNum 7)) true).2.commits = 1 ∧
    (withConnectionRun ⟨true, 0⟩ .vNull connAllOk (.ok (.vNum 7)) true).2.rollbacks = 0 ∧
    (withConnectionRun ⟨true, 0⟩ .vNull connAllOk (.ok (.vNum 7)) true).2.releases = 1 ∧
    (withConnectionRun ⟨true, 0⟩ .vNull connAllOk (.ok (.vNum 7)) true).1 = .resolved (.vNum 7) :=
  ⟨(work_success_commits ⟨true, 0⟩ .vNull (.vNum 7) connAllOk rfl rfl rfl).1,
   (work_success_commits ⟨true, 0⟩ .vNull (.vNum 7) connAllOk rfl rfl rfl).2.1,
   (work_success_commits ⟨true, 0⟩ .vNull (.vNum 7) connAllOk rfl rfl rfl).2.2.1,
   (work_success_commits ⟨true, 0⟩ .vNull (.vNum 7) connAllOk rfl rfl rfl).2.2.2 rfl⟩

/-- C4: when the unit of work fails with a truthy error and the
subsequent rollback fails with an `Error` object, the caller's promise
rejects with that rollback error, now carrying the work's error in its
`lastError` property — neither error is discarded. -/
theorem rollback_failure_carries_work_error
    (h : PoolHandle) (acquireErr e : JSVal) (conn : DriverConn) (msg : String) (prev : JSVal)
    (hp : h.pool = true) (ha : truthy acquireErr = false)
    (hb : truthy conn.beginResult = false) (he : truthy e = true)
    (hr : conn.rollbackResult = .vErr msg prev) :
    (withConnectionRun h acquireErr conn (.err e) true).1 = .rejected (.vErr msg e) := by
  simp [withConnectionRun, awaitPromisified, hp, ha, hb, he, hr]

/-- Witness for C4 at a concrete input: work rejects with
`Error("boom")`, rollback fails with `Error("rollback failed")`; the
surfaced rejection is the rollback error with the work error attached
as `lastError`. -/
theorem rollback_failure_carries_work_error_check :
    (withConnectionRun ⟨true, 0⟩ .vNull connRollbackFails (.err (.vErr "boom" .vUndefined)) true).1
      = .rejected (.vErr "rollback failed" (.vErr "boom" .vUndefined)) :=
  rollback_failure_carries_work_error ⟨true, 0⟩ .vNull (.vErr "boom" .vUndefined)
    connRollbackFails "rollback failed" .vUndefined rfl rfl rfl rfl rfl

/-- C5: when the unit of work succeeds but commit fails, the caller's
promise rejects with the commit error and in particular never resolves
with any value. -/
theorem commit_failure_surfaces_commit_error
    (h : PoolHandle) (acquireErr v : JSVal) (conn : DriverConn)
    (hp : h.pool = true) (ha : truthy acquireErr = false)
    (hb : truthy conn.beginResult = false) (hc : truthy conn.commitResult = true) :
    (withConnectionRun h acquireErr conn (.ok v) true).1 = .rejected conn.commitResult ∧
    ∀ w : JSVal, (withConnectionRun h acquireErr conn (.ok v) true).1 ≠ .resolved w := by
  have hout : (withConnectionRun h acquireErr conn (.ok v) true).1 = .rejected conn.commitResult := by
    simp [withConnectionRun, awaitPromisified, hp, ha, hb, hc]
  exact ⟨hout, fun w hw => by simp [hout] at hw⟩

/-- Witness for C5 at a concrete input: the work resolves with `7` but
commit fails; the invocation rejects with the commit error and does not
resolve with `7`. -/
theorem commit_failure_surfaces_commit_error_check :
    (withConnectionRun ⟨true, 0⟩ .vNull connCommitFails (.ok (.vNum 7)) true).1
      = .rejected (.vErr "commit failed" .vUndefined) ∧
    (withConnectionRun ⟨true, 0⟩ .vNull connCommitFails (.ok (.vNum 7)) true).1
      ≠ .resolved (.vNum 7) :=
  ⟨(commit_failure_surfaces_commit_error ⟨true, 0⟩ .vNull (.vNum 7) connCommitFails
      rfl rfl rfl rfl).1,
   (commit_failure_surfaces_commit_error ⟨true, 0⟩ .vNull (.vNum 7) connCommitFails
      rfl rfl rfl rfl).2 (.vNum 7)⟩

/-- C6 counterexample: with `withTransaction=false`, a unit of work
whose promise rejects with the falsy value `false` does not pass
through unchanged — the caller's promise resolves with `undefined`
instead of rejecting with `false`. -/
theorem nontransactional_falsy_rejection_resolves_cex :
    (withConnectionRun ⟨true, 0⟩ .vNull connAllOk (.err (.vBool false)) false).1
      = .resolved .vUndefined ∧
    (withConnectionRun ⟨true, 0⟩ .vNull connAllOk (.err (.vBool false)) false).1
      ≠ .rejected (.vBool false) := by
  decide

/-- C6 (amended): with `withTransaction=false` — which is how each of
the pool facade's convenience methods `query`, `select`, `insert`,
`update`, `delete` and `del` invokes the executor over the matching
connection-facade operation — begin, commit and rollback are never
invoked, release is invoked exactly once, and the unit of work's
outcome passes through unchanged when it is a value or a truthy error
(a rejection with a falsy value instead surfaces as a resolution with
`undefined`). -/
theorem nontransactional_passthrough
    (h : PoolHandle) (acquireErr : JSVal) (conn : DriverConn) (work : WorkOutcome)
    (hp : h.pool = true) (ha : truthy acquireErr = false) :
    (withConnectionRun h acquireErr conn work false).2.begins = 0 ∧
    (withConnectionRun h acquireErr conn work false).2.commits = 0 ∧
    (withConnectionRun h acquireErr conn work false).2.rollbacks = 0 ∧
    (withConnectionRun h acquireErr conn work false).2.releases = 1 ∧
    (∀ v, work = .ok v → (withConnectionRun h acquireErr conn work false).1 = .resolved v) ∧
    (∀ e, work = .err e → truthy e = true →
      (withConnectionRun h acquireErr conn work false).1 = .rejected e) ∧
    poolQuery h acquireErr conn = withConnectionRun h acquireErr conn (connQuery conn) false ∧
    poolSelect h acquireErr conn = withConnectionRun h acquireErr conn (connSelect conn) false ∧
    poolInsert h acquireErr conn = withConnectionRun h acquireErr conn (connCud conn) false ∧
    poolUpdate h acquireErr conn = withConnectionRun h acquireErr conn (connCud conn) false ∧
    poolDelete h acquireErr conn = withConnectionRun h acquireErr conn (connCud conn) false ∧
    poolDel h acquireErr conn = withConnectionRun h acquireErr conn (connCud conn) false := by
  refine ⟨?_, ?_, ?_, ?_, ?_, ?_, rfl, rfl, rfl, rfl, rfl, rfl⟩ <;>
    rcases work with v | e
  case _ => simp [withConnectionRun, hp, ha]
  case _ => by_cases he : truthy e <;> simp [withConnectionRun, hp, ha, he]
  case _ => simp [withConnectionRun, hp, ha]
  case _ => by_cases he : truthy e <;> simp [withConnectionRun, hp, ha, he]
  case _ => simp [withConnectionRun, hp, ha]
  case _ => by_cases he : truthy e <;> simp [withConnectionRun, hp, ha, he]
  case _ => simp [withConnectionRun, hp, ha]
  case _ => by_cases he : truthy e <;> simp [withConnectionRun, hp, ha, he]
  case _ =>
    intro v hv
    cases hv
    simp [withConnectionRun, hp, ha]
  case _ =>
    intro w hw
    cases hw
  case _ =>
    intro w hw
    cases hw
  case _ =>
    intro e2 he2 ht
    cases he2
    simp [withConnectionRun, hp, ha, ht]

/-- Witness for C6 (amended) at concrete inputs: a non-transactional
invocation whose work resolves with `7` issues no begin, commit or
rollback, releases once and resolves with `7`. -/
theorem nontransactional_passthrough_check :
    (withConnectionRun ⟨true, 0⟩ .vNull connAllOk (.ok (.vNum 7)) false).2.begins = 0 ∧
    (withConnectionRun ⟨true, 0⟩ .vNull connAllOk (.ok (.vNum 7)) false).2.commits = 0 ∧
    (withConnectionRun ⟨true, 0⟩ .vNull connAllOk (.ok (.vNum 7)) false).2.rollbacks = 0 ∧
    (withConnectionRun ⟨true, 0⟩ .vNull connAllOk (.ok (.vNum 7)) false).2.releases = 1 ∧
    (withConnectionRun ⟨true, 0⟩ .vNull connAllOk (.ok (.vNum 7)) false).1 = .resolved (.vNum 7) :=
  ⟨(nontransactional_passthrough ⟨true, 0⟩ .vNull connAllOk (.ok (.vNum 7)) rfl rfl).1,
   (nontransactional_passthrough ⟨true, 0⟩ .vNull connAllOk (.ok (.vNum 7)) rfl rfl).2.1,
   (nontransactional_passthrough ⟨true, 0⟩ .vNull connAllOk (.ok (.vNum 7)) rfl rfl).2.2.1,
   (nontransactional_passthrough ⟨true, 0⟩ .vNull connAllOk (.ok (.vNum 7)) rfl rfl).2.2.2.1,
   (nontransactional_passthrough ⟨true, 0⟩ .vNull connAllOk (.ok (.vNum 7)) rfl rfl).2.2.2.2.1
     (.vNum 7) rfl⟩

/-- C7: after `destroy()`, every `withConnection` call and every
convenience method rejects with the destroyed-pool error with an
all-zero trace — in particular `getConnection` is never called — and a
second `destroy()` returns without changing anything (same cleared slot,
no further `pool.end()` call). -/
theorem destroyed_pool_rejects_immediately
    (h : PoolHandle) (acquireErr : JSVal) (conn : DriverConn)
    (work : WorkOutcome) (wT : Bool) :
    withConnectionRun (destroy h) acquireErr conn work wT
      = (.rejected poolDestroyedError, ⟨0, 0, 0, 0, 0⟩) ∧
    poolQuery (destroy h) acquireErr conn = (.rejected poolDestroyedError, ⟨0, 0, 0, 0, 0⟩) ∧
    poolSelect (destroy h) acquireErr conn = (.rejected poolDestroyedError, ⟨0, 0, 0, 0, 0⟩) ∧
    poolInsert (destroy h) acquireErr conn = (.rejected poolDestroyedError, ⟨0, 0, 0, 0, 0⟩) ∧
    poolUpdate (destroy h) acquireErr conn = (.rejected poolDestroyedError, ⟨0, 0, 0, 0, 0⟩) ∧
    poolDelete (destroy h) acquireErr conn = (.rejected poolDestroyedError, ⟨0, 0, 0, 0, 0⟩) ∧
    poolDel (destroy h) acquireErr conn = (.rejected poolDestroyedError, ⟨0, 0, 0, 0, 0⟩) ∧
    destroy (destroy h) = destroy h := by
  have hpool : (destroy h).pool = false := by
    by_cases hp : h.pool <;> simp [destroy, hp]
  have hclear : ∀ g : PoolHandle, g.pool = false → destroy g = g := by
    intro g hg
    simp [destroy, hg]
  refine ⟨?_, ?_, ?_, ?_, ?_, ?_, ?_, hclear (destroy h) hpool⟩ <;>
    simp [withConnectionRun, poolQuery, poolSelect, poolInsert, poolUpdate, poolDelete,
      poolDel, hpool]

/-- C8: a `promisify`-wrapped operation whose completion callback is
invoked at least once settles exactly once, and the settlement is
decided by the first invocation: rejection with the callback's first
argument when that argument is truthy, resolution with its second
argument otherwise; later invocations cannot add or change an
outcome. -/
theorem promisified_single_settlement (e v : JSVal) (rest : List (JSVal × JSVal)) :
    promisifyRun ((e, v) :: rest)
      = some (if truthy e = true then Outcome.rejected e else Outcome.resolved v) := by
  have hsettled : ∀ (o : Outcome) (l : List (JSVal × JSVal)),
      l.foldl settleStep (some o) = some o := by
    intro o l
    induction l with
    | nil => rfl
    | cons a l ih => simpa [settleStep] using ih
  by_cases he : truthy e <;> simp [promisifyRun, settleStep, he, hsettled]

/-- C9: code-bug evidence.  With the explicit count `0` supplied — as
at the source's own `promisify(connection.beginTransaction, 0)`,
`promisify(connection.commit, 0)` and `promisify(connection.rollback, 0)`
call sites — and a wrapped operation of declared arity 2 (the driver's
`beginTransaction(options, callback)`), invoking the wrapped operation
with no arguments builds one positional argument (`undefined`) from the
declared arity instead of the zero positional arguments the explicit
count requests: `0 || func.length - 1` discards the explicit count. -/
theorem promisify_zero_count_falls_back_to_arity :
    promisifyArgs (some 0) 2 [] = [JSVal.vUndefined] ∧ promisifyArgs (some 0) 2 [] ≠ [] := by
  decide

/-- C10 counterexample: a unit of work that rejects with the falsy
value `null` under `withTransaction=true` does not resolve with
`undefined` when the issued commit itself fails — the caller's promise
rejects with the commit error. -/
theorem falsy_failure_commit_error_cex :
    (withConnectionRun ⟨true, 0⟩ .vNull connCommitFails (.err .vNull) true).1
      = .rejected (.vErr "commit failed" .vUndefined) ∧
    (withConnectionRun ⟨true, 0⟩ .vNull connCommitFails (.err .vNull) true).1
      ≠ .resolved .vUndefined := by
  decide

/-- C10 (amended): a unit of work that fails by throwing or rejecting
a falsy value is classified as a success: with `withTransaction=true`
(begin having succeeded) commit is issued exactly once and rollback
never, and the caller's promise resolves with `undefined` whenever
`withTransaction=false` or the issued commit succeeds (when the commit
fails, the commit error is surfaced instead). -/
theorem falsy_failure_treated_as_success
    (h : PoolHandle) (acquireErr e : JSVal) (conn : DriverConn) (wT : Bool)
    (hp : h.pool = true) (ha : truthy acquireErr = false) (he : truthy e = false)
    (hb : wT = true → truthy conn.beginResult = false) :
    (wT = true → (withConnectionRun h acquireErr conn (.err e) wT).2.commits = 1 ∧
      (withConnectionRun h acquireErr conn (.err e) wT).2.rollbacks = 0) ∧
    (wT = false ∨ truthy conn.commitResult = false →
      (withConnectionRun h acquireErr conn (.err e) wT).1 = .resolved .vUndefined) := by
  cases wT
  · constructor
    · intro hw
      cases hw
    · intro _
      simp [withConnectionRun, hp, ha, he]
  · have hb1 : truthy conn.beginResult = false := hb rfl
    by_cases hc : truthy conn.commitResult
    · refine ⟨fun _ => ?_, fun hw => ?_⟩
      · simp [withConnectionRun, awaitPromisified, hp, ha, he, hb1, hc]
      · rcases hw with hw | hw
        · cases hw
        · rw [hw] at hc
          cases hc
    · refine ⟨fun _ => ?_, fun _ => ?_⟩ <;>
        simp [withConnectionRun, awaitPromisified, hp, ha, he, hb1, hc]

/-- Witness for C10 (amended) at a concrete input: work rejects with
`undefined` under `withTransaction=true` and commit succeeds; the
invocation commits once, never rolls back, and resolves with
`undefined`. -/
theorem falsy_failure_treated_as_success_check :
    (withConnectionRun ⟨true, 0⟩ .vNull connAllOk (.err .vUndefined) true).2.commits = 1 ∧
    (withConnectionRun ⟨true, 0⟩ .vNull connAllOk (.err .vUndefined) true).2.rollbacks = 0 ∧
    (withConnectionRun ⟨true, 0⟩ .vNull connAllOk (.err .vUndefined) true).1
      = .resolved .vUndefined :=
  ⟨((falsy_failure_treated_as_success ⟨true, 0⟩ .vNull .vUndefined connAllOk true
      rfl rfl rfl (fun _ => rfl)).1 rfl).1,
   ((falsy_failure_treated_as_success ⟨true, 0⟩ .vNull .vUndefined connAllOk true
      rfl rfl rfl (fun _ => rfl)).1 rfl).2,
   (falsy_failure_treated_as_success ⟨true, 0⟩ .vNull .vUndefined connAllOk true
      rfl rfl rfl (fun _ => rfl)).2 (Or.inr rfl)⟩
